import Mathlib

/-!
Shallow embedding of the request/transaction lifecycle of the
Scalable-Request-Service repository.

The embedding follows the two mongoose schemas (Request and Transaction)
and the express route handlers in requestRoutes.js and the transaction
routes file.  Stored documents are modelled as Lean structures, the
mongoose collection as lists inside a Store, and each route handler as a
pure function from its inputs and the current Store to an HTTP-style
result together with the next Store.  ObjectIds are modelled as natural
numbers handed out by the Store; dates are natural-number timestamps
supplied by the caller as a now parameter.
-/

/-- HTTP-style result of a route handler: an ok payload with a status
code, or an error status code with the message the handler sends. -/
inductive RouteResult (α : Type) where
  | ok (code : Nat) (val : α)
  | err (code : Nat) (msg : String)
  deriving Repr, DecidableEq

/-- A stored Request document.  Fields follow requestSchema: RequestedBy,
RequestedTo, BookID, RequestDate, Status, DeliveryMethod, Duration,
NegotiatedTerms.  Every stored document has passed mongoose validation,
so the required string fields are plain strings here. -/
structure RequestDoc where
  id : Nat
  RequestedBy : String
  RequestedTo : String
  BookID : String
  RequestDate : Nat
  Status : String
  DeliveryMethod : String
  Duration : Int
  NegotiatedTerms : String
  deriving Repr, DecidableEq

/-- A stored Transaction document.  Fields follow transactionSchema:
RequestID, OwnerID, BooKID (spelling as in the schema), Status,
TransactionDate, BookReturnedDate.  RequestID, OwnerID and BooKID are
Option because a document object can be constructed without them; the
validity predicate below is what save enforces. -/
structure TransactionDoc where
  id : Nat
  RequestID : Option Nat
  OwnerID : Option String
  BooKID : Option String
  Status : String
  TransactionDate : Option Nat
  BookReturnedDate : Option Nat
  deriving Repr, DecidableEq

/-- The persistence store: the Request collection, the Transaction
collection, and the next fresh ObjectId. -/
structure Store where
  requests : List RequestDoc
  transactions : List TransactionDoc
  nextId : Nat
  deriving Repr, DecidableEq

/-- The store at process start: both collections empty. -/
def emptyStore : Store := ⟨[], [], 0⟩

/-- Status enum of requestSchema. -/
def requestStatusValues : List String :=
  ["Pending", "Accepted", "Rejected", "Modified"]

/-- DeliveryMethod enum of requestSchema. -/
def deliveryMethodValues : List String := ["In-person", "Shipping"]

/-- The status values the PUT request route accepts, as listed in its
includes check. -/
def updatableStatusValues : List String := ["Pending", "Accepted", "Rejected"]

/-- Status enum of transactionSchema. -/
def transactionStatusValues : List String :=
  ["Pending", "In Progress", "Shipping", "Delivered", "Cancelled"]

/-- JavaScript falsiness of an optional string value: undefined or the
empty string.  This is what a bang test on a request-body string field
computes. -/
def strFalsy : Option String → Bool
  | none => true
  | some s => s == ""

/-- JavaScript falsiness of an optional numeric value: undefined or 0. -/
def numFalsy : Option Int → Bool
  | none => true
  | some n => n == 0

/-- JSON body of POST to the request collection, as destructured by the
route: RequestedBy, BookID, DeliveryMethod, Duration, NegotiatedTerms,
RequestedTo.  Absent keys are none. -/
structure RequestBody where
  RequestedBy : Option String
  RequestedTo : Option String
  BookID : Option String
  DeliveryMethod : Option String
  Duration : Option Int
  NegotiatedTerms : Option String
  deriving Repr, DecidableEq

/-- Mongoose save-time validation of requestSchema: RequestedBy,
RequestedTo and BookID are required strings (a required string must be
non-empty), Status and DeliveryMethod must lie in their enums, Duration
is a required number and is always present on a constructed document. -/
def requestDocValid (r : RequestDoc) : Bool :=
  r.RequestedBy != "" && r.RequestedTo != "" && r.BookID != "" &&
  requestStatusValues.contains r.Status &&
  deliveryMethodValues.contains r.DeliveryMethod

/-- Mongoose save-time validation of transactionSchema: RequestID,
OwnerID and BooKID are required (required strings must be non-empty),
Status must lie in the transaction status enum. -/
def transactionDocValid (t : TransactionDoc) : Bool :=
  t.RequestID.isSome &&
  (match t.OwnerID with | some s => s != "" | none => false) &&
  (match t.BooKID with | some s => s != "" | none => false) &&
  transactionStatusValues.contains t.Status

/-- POST on the request collection.  The handler first rejects with 400
if any of RequestedBy, BookID, DeliveryMethod, Duration is falsy, then
constructs a new Request document with Status Pending, RequestDate now
and NegotiatedTerms defaulted to the empty string, and saves it; a
mongoose validation failure on save is caught and becomes a 400. -/
def postRequest (body : RequestBody) (now : Nat) (st : Store) :
    RouteResult RequestDoc × Store :=
  if strFalsy body.RequestedBy || strFalsy body.BookID ||
     strFalsy body.DeliveryMethod || numFalsy body.Duration then
    (.err 400 "All required fields must be provided", st)
  else
    let doc : RequestDoc :=
      { id := st.nextId
        RequestedBy := body.RequestedBy.getD ""
        RequestedTo := body.RequestedTo.getD ""
        BookID := body.BookID.getD ""
        RequestDate := now
        Status := "Pending"
        DeliveryMethod := body.DeliveryMethod.getD ""
        Duration := body.Duration.getD 0
        NegotiatedTerms := body.NegotiatedTerms.getD "" }
    if requestDocValid doc then
      (.ok 201 doc,
       { st with requests := st.requests ++ [doc], nextId := st.nextId + 1 })
    else
      (.err 400 "Request validation failed", st)

/-- GET on the request collection filtered by user: all requests where
the user id matches RequestedBy or RequestedTo. -/
def getUserRequests (userId : String) (st : Store) : List RequestDoc :=
  st.requests.filter (fun r => r.RequestedBy == userId || r.RequestedTo == userId)

/-- GET of a single request by id: 200 with the document or 404. -/
def getRequest (id : Nat) (st : Store) : RouteResult RequestDoc :=
  match st.requests.find? (fun r => r.id == id) with
  | some r => .ok 200 r
  | none => .err 404 "Request not found"

/-- PUT on a request.  The handler rejects with 400 when the submitted
status is outside its includes list, then updates the document in place
(404 when the id does not resolve); when the new status is Accepted it
constructs and saves a Transaction whose RequestID is the request id,
OwnerID the RequestedTo of the updated request, BooKID its BookID and
Status Pending.  A save failure of that transaction is caught by the
outer catch and becomes a 500, after the request update already took
effect.  On success the updated request, not the transaction, is the
payload. -/
def putRequest (requestId : Nat) (status : String) (now : Nat) (st : Store) :
    RouteResult RequestDoc × Store :=
  if !(updatableStatusValues.contains status) then
    (.err 400 "Invalid status", st)
  else
    match st.requests.find? (fun r => r.id == requestId) with
    | none => (.err 404 "Request not found", st)
    | some r =>
      let updated : RequestDoc := { r with Status := status }
      let st1 : Store :=
        { st with requests :=
            st.requests.map (fun q => if q.id == requestId then updated else q) }
      if status == "Accepted" then
        let tx : TransactionDoc :=
          { id := st1.nextId
            RequestID := some requestId
            OwnerID := some updated.RequestedTo
            BooKID := some updated.BookID
            Status := "Pending"
            TransactionDate := some now
            BookReturnedDate := none }
        if transactionDocValid tx then
          (.ok 200 updated,
           { st1 with transactions := st1.transactions ++ [tx],
                      nextId := st1.nextId + 1 })
        else
          (.err 500 "Transaction validation failed", st1)
      else
        (.ok 200 updated, st1)

/-- DELETE of a request: removes it and answers 200, or 404 when the id
does not resolve. -/
def deleteRequest (id : Nat) (st : Store) : RouteResult String × Store :=
  match st.requests.find? (fun r => r.id == id) with
  | none => (.err 404 "Request not found", st)
  | some _ =>
    (.ok 200 "Request deleted successfully",
     { st with requests := st.requests.filter (fun r => !(r.id == id)) })

/-- JSON body of POST on the transaction collection, as destructured by
the route: ExchangeRequestID, Status, BookReturnedDate.  No other key of
the body is read by the handler. -/
structure TransactionBody where
  ExchangeRequestID : Option Nat
  Status : Option String
  BookReturnedDate : Option Nat
  deriving Repr, DecidableEq

/-- POST on the transaction collection.  The handler constructs a
Transaction from ExchangeRequestID, Status and BookReturnedDate.
ExchangeRequestID is not a path of transactionSchema, so mongoose in its
default strict mode discards it; RequestID, OwnerID and BooKID are never
set by this route.  Status defaults to Pending.  The save-time
validation failure is caught and becomes a 400. -/
def postTransaction (body : TransactionBody) (now : Nat) (st : Store) :
    RouteResult TransactionDoc × Store :=
  let doc : TransactionDoc :=
    { id := st.nextId
      RequestID := none
      OwnerID := none
      BooKID := none
      Status := body.Status.getD "Pending"
      TransactionDate := some now
      BookReturnedDate := body.BookReturnedDate }
  if transactionDocValid doc then
    (.ok 201 doc,
     { st with transactions := st.transactions ++ [doc], nextId := st.nextId + 1 })
  else
    (.err 400 "Transaction validation failed", st)

/-- Update body of PUT on a transaction: any subset of the schema paths
may appear; keys outside the schema are discarded by strict mode. -/
structure TransactionUpdateBody where
  RequestID : Option Nat
  OwnerID : Option String
  BooKID : Option String
  Status : Option String
  TransactionDate : Option Nat
  BookReturnedDate : Option Nat
  deriving Repr, DecidableEq

/-- Update validators on the modified paths, as run by runValidators:
a supplied Status must lie in the transaction status enum, supplied
OwnerID and BooKID must be non-empty. -/
def transactionUpdateValid (u : TransactionUpdateBody) : Bool :=
  (match u.Status with
   | some s => transactionStatusValues.contains s
   | none => true) &&
  (match u.OwnerID with | some s => s != "" | none => true) &&
  (match u.BooKID with | some s => s != "" | none => true)

/-- Overwrite an optional field when the update supplies a value. -/
def setIfGiven {α : Type} (new old : Option α) : Option α :=
  match new with
  | some v => some v
  | none => old

/-- Apply the supplied fields of the update body to a stored
transaction, leaving the other fields as they were. -/
def applyTransactionUpdate (t : TransactionDoc) (u : TransactionUpdateBody) :
    TransactionDoc :=
  { t with
    RequestID := setIfGiven u.RequestID t.RequestID
    OwnerID := setIfGiven u.OwnerID t.OwnerID
    BooKID := setIfGiven u.BooKID t.BooKID
    Status := u.Status.getD t.Status
    TransactionDate := setIfGiven u.TransactionDate t.TransactionDate
    BookReturnedDate := setIfGiven u.BookReturnedDate t.BookReturnedDate }

/-- PUT on a transaction: findByIdAndUpdate with runValidators.  The
update validators run first; a failure is caught as 400.  Then the
document is updated in place and answered with 200, or 404 when the id
does not resolve. -/
def putTransaction (id : Nat) (u : TransactionUpdateBody) (st : Store) :
    RouteResult TransactionDoc × Store :=
  if !(transactionUpdateValid u) then
    (.err 400 "Validation failed", st)
  else
    match st.transactions.find? (fun t => t.id == id) with
    | none => (.err 404 "Transaction not found", st)
    | some t =>
      let updated := applyTransactionUpdate t u
      (.ok 200 updated,
       { st with transactions :=
           st.transactions.map (fun q => if q.id == id then updated else q) })

/-- DELETE of a transaction: removes it and answers 200, or 404. -/
def deleteTransaction (id : Nat) (st : Store) : RouteResult String × Store :=
  match st.transactions.find? (fun t => t.id == id) with
  | none => (.err 404 "Transaction not found", st)
  | some _ =>
    (.ok 200 "Transaction deleted successfully",
     { st with transactions := st.transactions.filter (fun t => !(t.id == id)) })

/-- One state transition of the service: any store-mutating route
handler run on any input. -/
inductive Step : Store → Store → Prop where
  | createRequest (body : RequestBody) (now : Nat) (st : Store) :
      Step st (postRequest body now st).2
  | updateRequest (id : Nat) (status : String) (now : Nat) (st : Store) :
      Step st (putRequest id status now st).2
  | removeRequest (id : Nat) (st : Store) :
      Step st (deleteRequest id st).2
  | createTransaction (body : TransactionBody) (now : Nat) (st : Store) :
      Step st (postTransaction body now st).2
  | updateTransaction (id : Nat) (u : TransactionUpdateBody) (st : Store) :
      Step st (putTransaction id u st).2
  | removeTransaction (id : Nat) (st : Store) :
      Step st (deleteTransaction id st).2

/-- A store is reachable when some sequence of route handlers produces
it from the empty store. -/
def Reachable (st : Store) : Prop :=
  Relation.ReflTransGen Step emptyStore st

/-- Every stored request carries a status from the four-value enum of
requestSchema. -/
def requestStatusesOk (st : Store) : Prop :=
  ∀ r ∈ st.requests, requestStatusValues.contains r.Status = true

/-- A concrete stored request used to instantiate theorems. -/
def sampleRequest : RequestDoc :=
  ⟨0, "u1", "u2", "b1", 0, "Pending", "In-person", 7, ""⟩

/-- A store holding just the sample request. -/
def sampleStore : Store := ⟨[sampleRequest], [], 1⟩

/-- A concrete stored transaction used to instantiate theorems. -/
def sampleTransaction : TransactionDoc :=
  ⟨0, some 0, some "u2", some "b1", "Pending", some 0, none⟩

/-- A store holding just the sample transaction. -/
def sampleTransactionStore : Store := ⟨[], [sampleTransaction], 1⟩

/-- The PUT route status list is contained in the requestSchema status
enum. -/
theorem updatable_status_in_request_enum {s : String}
    (h : updatableStatusValues.contains s = true) :
    requestStatusValues.contains s = true := by
  have h' : s = "Pending" ∨ s = "Accepted" ∨ s = "Rejected" := by
    simpa [updatableStatusValues] using h
  rcases h' with h' | h' | h' <;> subst h' <;> decide

/-- Every request in the store produced by the POST request route is
either an old request or carries status Pending. -/
theorem postRequest_requests_cases (body : RequestBody) (now : Nat) (st : Store) :
    ∀ r ∈ (postRequest body now st).2.requests,
      r ∈ st.requests ∨ r.Status = "Pending" := by
  intro r hr
  simp only [postRequest] at hr
  split at hr
  · exact Or.inl hr
  · split at hr
    · simp only [Store.requests] at hr
      rcases List.mem_append.mp hr with h | h
      · exact Or.inl h
      · right
        simp only [List.mem_singleton] at h
        subst h
        rfl
    · exact Or.inl hr

/-- Every request in the store produced by the PUT request route is
either an old request or carries the submitted status, which passed the
includes check. -/
theorem putRequest_requests_cases (id : Nat) (status : String) (now : Nat)
    (st : Store) :
    ∀ r ∈ (putRequest id status now st).2.requests,
      r ∈ st.requests ∨
        (r.Status = status ∧ updatableStatusValues.contains status = true) := by
  intro r hr
  simp only [putRequest] at hr
  split at hr
  · exact Or.inl hr
  · rename_i hguard
    have hc : updatableStatusValues.contains status = true := by
      simpa using hguard
    split at hr
    · exact Or.inl hr
    · rename_i r0 hfind
      have hmap :
          r ∈ st.requests.map
            (fun q => if q.id == id then { r0 with Status := status } else q) → 
          r ∈ st.requests ∨ r.Status = status := by
        intro hm
        rcases List.mem_map.mp hm with ⟨q, hq, hqe⟩
        by_cases hid : (q.id == id) = true
        · right
          rw [hid] at hqe
          simp only [if_true] at hqe
          subst hqe
          rfl
        · left
          rw [Bool.not_eq_true] at hid
          rw [hid] at hqe
          simp only [Bool.false_eq_true, if_false] at hqe
          subst hqe
          exact hq
      split at hr
      · split at hr
        · have := hmap (by simpa using hr)
          tauto
        · have := hmap (by simpa using hr)
          tauto
      · have := hmap (by simpa using hr)
        tauto

/-- The DELETE request route only removes requests. -/
theorem deleteRequest_requests_sub (id : Nat) (st : Store) :
    ∀ r ∈ (deleteRequest id st).2.requests, r ∈ st.requests := by
  intro r hr
  simp only [deleteRequest] at hr
  split at hr
  · exact hr
  · exact (List.mem_filter.mp hr).1

/-- The POST transaction route leaves the request collection alone. -/
theorem postTransaction_requests_eq (body : TransactionBody) (now : Nat)
    (st : Store) :
    (postTransaction body now st).2.requests = st.requests := by
  simp only [postTransaction]
  split <;> rfl

/-- The PUT transaction route leaves the request collection alone. -/
theorem putTransaction_requests_eq (id : Nat) (u : TransactionUpdateBody)
    (st : Store) :
    (putTransaction id u st).2.requests = st.requests := by
  simp only [putTransaction]
  split
  · rfl
  · split <;> rfl

/-- The DELETE transaction route leaves the request collection alone. -/
theorem deleteTransaction_requests_eq (id : Nat) (st : Store) :
    (deleteTransaction id st).2.requests = st.requests := by
  simp only [deleteTransaction]
  split <;> rfl

/-- Each route handler preserves the request status invariant. -/
theorem step_preserves_request_statuses {st st' : Store} (h : Step st st')
    (hinv : requestStatusesOk st) : requestStatusesOk st' := by
  cases h with
  | createRequest body now st =>
      intro r hr
      rcases postRequest_requests_cases body now st r hr with h' | h'
      · exact hinv r h'
      · rw [h']; decide
  | updateRequest id status now st =>
      intro r hr
      rcases putRequest_requests_cases id status now st r hr with h' | ⟨h1, h2⟩
      · exact hinv r h'
      · rw [h1]; exact updatable_status_in_request_enum h2
  | removeRequest id st =>
      intro r hr
      exact hinv r (deleteRequest_requests_sub id st r hr)
  | createTransaction body now st =>
      intro r hr
      rw [postTransaction_requests_eq] at hr
      exact hinv r hr
  | updateTransaction id u st =>
      intro r hr
      rw [putTransaction_requests_eq] at hr
      exact hinv r hr
  | removeTransaction id st =>
      intro r hr
      rw [deleteTransaction_requests_eq] at hr
      exact hinv r hr

/-- C2: the claim says the Transaction Create operation fails exactly
when requestID, ownerID or bookID is missing and that the dedicated API
route shares this validation.  On the code, the dedicated POST
transaction route copies only ExchangeRequestID, Status and
BookReturnedDate into the document; ExchangeRequestID is not a schema
path and is discarded, so RequestID, OwnerID and BooKID are always
missing and the route answers 400 on every input. -/
theorem C2_post_transaction_route_always_fails (body : TransactionBody)
    (now : Nat) (st : Store) :
    postTransaction body now st = (.err 400 "Transaction validation failed", st) := by
  simp [postTransaction, transactionDocValid]

/-- C3: for every request id and every status outside the set Pending,
Accepted, Rejected, the PUT request route fails with 400 and the store,
hence every stored Request, is left entirely unmodified. -/
theorem C3_invalid_status_rejected (id : Nat) (status : String) (now : Nat)
    (st : Store) (h : status ∉ updatableStatusValues) :
    putRequest id status now st = (.err 400 "Invalid status", st) := by
  have hc : updatableStatusValues.contains status = false := by
    simpa [updatableStatusValues] using h
  unfold putRequest
  rw [hc]
  rfl

/-- Witness for C3 at the concrete status Bogus on a store holding one
request. -/
theorem C3_invalid_status_rejected_witness :
    putRequest 0 "Bogus" 0 sampleStore = (.err 400 "Invalid status", sampleStore) :=
  C3_invalid_status_rejected 0 "Bogus" 0 sampleStore (by decide)

/-- C4: the claim says a Create(Request) input with RequestedBy, BookID,
DeliveryMethod and Duration present and valid succeeds.  On the code,
requestSchema also marks RequestedTo as required, so this input, which
omits RequestedTo, is rejected with 400 at save time even though all
four named fields are present and valid. -/
theorem C4_counterexample_missing_counterparty :
    postRequest ⟨some "u1", none, some "b1", some "In-person", some 7, none⟩ 0
        emptyStore =
      (.err 400 "Request validation failed", emptyStore) := by
  decide

/-- C5: the claim says Create(Request) succeeds when the counterparty is
omitted and the four required fields are present.  On the code, the
required RequestedTo path of requestSchema rejects the save with 400. -/
theorem C5_counterexample_optional_counterparty :
    postRequest ⟨some "alice", none, some "b2", some "Shipping", some 14, some "t"⟩
        5 emptyStore =
      (.err 400 "Request validation failed", emptyStore) := by
  decide

/-- C6: the user-filtered GET returns exactly the stored requests in
which the user equals RequestedBy or RequestedTo. -/
theorem C6_list_for_user_exact (u : String) (st : Store) (r : RequestDoc) :
    r ∈ getUserRequests u st ↔
      r ∈ st.requests ∧ (r.RequestedBy = u ∨ r.RequestedTo = u) := by
  simp [getUserRequests, List.mem_filter]

/-- C9: the presence check of the POST request route tests JavaScript
falsiness, so a Duration equal to 0 or an empty-string RequestedBy,
BookID or DeliveryMethod is rejected with 400 even though the field is
present. -/
theorem C9_falsy_presence_check (body : RequestBody) (now : Nat) (st : Store)
    (h : body.Duration = some 0 ∨ body.RequestedBy = some "" ∨
         body.BookID = some "" ∨ body.DeliveryMethod = some "") :
    postRequest body now st =
      (.err 400 "All required fields must be provided", st) := by
  rcases h with h | h | h | h <;> simp [postRequest, strFalsy, numFalsy, h]

/-- Witness for C9 at a concrete body whose Duration is the present
number 0. -/
theorem C9_falsy_presence_check_witness :
    postRequest ⟨some "u1", some "u2", some "b1", some "In-person", some 0, none⟩ 3
        emptyStore =
      (.err 400 "All required fields must be provided", emptyStore) :=
  C9_falsy_presence_check _ 3 emptyStore (Or.inl rfl)

/-- C10: the PUT request route validates the status before resolving the
id, so an unresolvable id is answered 400 when the status is invalid and
404 only when the status is valid. -/
theorem C10_validation_precedes_lookup (id : Nat) (status : String) (now : Nat)
    (st : Store) (habsent : st.requests.find? (fun r => r.id == id) = none) :
    (status ∉ updatableStatusValues →
      putRequest id status now st = (.err 400 "Invalid status", st)) ∧
    (status ∈ updatableStatusValues →
      putRequest id status now st = (.err 404 "Request not found", st)) := by
  constructor
  · intro h
    have hc : updatableStatusValues.contains status = false := by
      simpa [updatableStatusValues] using h
    unfold putRequest
    rw [hc]
    rfl
  · intro h
    have hc : updatableStatusValues.contains status = true := by
      simpa [updatableStatusValues] using h
    unfold putRequest
    rw [hc, habsent]
    rfl

/-- Witness for C10 on the empty store: id 7 does not resolve, the
status Bogus is answered 400 and the status Accepted is answered 404. -/
theorem C10_validation_precedes_lookup_witness :
    putRequest 7 "Bogus" 0 emptyStore = (.err 400 "Invalid status", emptyStore) ∧
    putRequest 7 "Accepted" 0 emptyStore =
      (.err 404 "Request not found", emptyStore) :=
  ⟨(C10_validation_precedes_lookup 7 "Bogus" 0 emptyStore rfl).1 (by decide),
   (C10_validation_precedes_lookup 7 "Accepted" 0 emptyStore rfl).2 (by decide)⟩

/-- C1: accepting an existing valid request via the PUT request route
answers 200 with the updated request, not the created transaction, and
appends exactly one new Transaction whose RequestID equals the request
id, OwnerID equals the RequestedTo of the request, BooKID equals its
BookID, and whose status is Pending. -/
theorem C1_accept_creates_one_transaction (st : Store) (r : RequestDoc)
    (now : Nat)
    (hfind : st.requests.find? (fun q => q.id == r.id) = some r)
    (hval : requestDocValid r = true) :
    putRequest r.id "Accepted" now st =
      (.ok 200 { r with Status := "Accepted" },
       { requests := st.requests.map
           (fun q => if q.id == r.id then { r with Status := "Accepted" } else q)
         transactions := st.transactions ++
           [{ id := st.nextId
              RequestID := some r.id
              OwnerID := some r.RequestedTo
              BooKID := some r.BookID
              Status := "Pending"
              TransactionDate := some now
              BookReturnedDate := none }]
         nextId := st.nextId + 1 }) := by
  have hv := hval
  simp only [requestDocValid, Bool.and_eq_true] at hv
  obtain ⟨⟨⟨⟨hBy, hTo⟩, hBook⟩, hStat⟩, hDel⟩ := hv
  unfold putRequest
  rw [hfind]
  simp [transactionDocValid, hTo, hBook, updatableStatusValues,
    transactionStatusValues]

/-- Witness for C1: accepting the sample request creates the matching
transaction and answers with the updated request. -/
theorem C1_accept_creates_one_transaction_witness :
    putRequest 0 "Accepted" 9 sampleStore =
      (.ok 200 ⟨0, "u1", "u2", "b1", 0, "Accepted", "In-person", 7, ""⟩,
       ⟨[⟨0, "u1", "u2", "b1", 0, "Accepted", "In-person", 7, ""⟩],
        [⟨1, some 0, some "u2", some "b1", "Pending", some 9, none⟩], 2⟩) :=
  C1_accept_creates_one_transaction sampleStore sampleRequest 9 (by decide)
    (by decide)

/-- C7: the PUT transaction route runs the update validators first and
answers 400 when they fail, answers 404 when the id does not resolve,
and otherwise applies the partial update and answers 200 with the
updated document; no constraint relates the old and the new status, so
any transition between recognized values is accepted. -/
theorem C7_transaction_update_semantics (id : Nat) (u : TransactionUpdateBody)
    (st : Store) :
    (transactionUpdateValid u = false →
      putTransaction id u st = (.err 400 "Validation failed", st)) ∧
    (transactionUpdateValid u = true →
      st.transactions.find? (fun t => t.id == id) = none →
      putTransaction id u st = (.err 404 "Transaction not found", st)) ∧
    (∀ t, transactionUpdateValid u = true →
      st.transactions.find? (fun t2 => t2.id == id) = some t →
      putTransaction id u st =
        (.ok 200 (applyTransactionUpdate t u),
         { st with transactions := List.map (fun q => if q.id == id then applyTransactionUpdate t u else q) st.transactions })) := by
  refine ⟨?_, ?_, ?_⟩
  · intro h
    unfold putTransaction
    rw [h]
    rfl
  · intro h hfind
    unfold putTransaction
    rw [h, hfind]
    rfl
  · intro t h hfind
    unfold putTransaction
    rw [h, hfind]
    rfl

/-- Witness for C7: the sample transaction goes from Pending directly to
Delivered, an out-of-order transition, and is answered 200. -/
theorem C7_transaction_update_semantics_witness :
    putTransaction 0 ⟨none, none, none, some "Delivered", none, none⟩
        sampleTransactionStore =
      (.ok 200 ⟨0, some 0, some "u2", some "b1", "Delivered", some 0, none⟩,
       ⟨[], [⟨0, some 0, some "u2", some "b1", "Delivered", some 0, none⟩], 1⟩) :=
  (C7_transaction_update_semantics 0 ⟨none, none, none, some "Delivered", none, none⟩
    sampleTransactionStore).2.2 sampleTransaction (by decide) (by decide)

/-- C8: in every store reachable from the empty store through the route
handlers, every stored request carries one of the four enum status
values of requestSchema. -/
theorem C8_request_status_invariant (st : Store) (h : Reachable st) :
    requestStatusesOk st := by
  have h' : Relation.ReflTransGen Step emptyStore st := h
  clear h
  induction h' with
  | refl =>
      intro r hr
      simp [emptyStore] at hr
  | tail hab hstep ih => exact step_preserves_request_statuses hstep ih

/-- Witness for C8: the store reached by one successful request creation
satisfies the status invariant. -/
theorem C8_request_status_invariant_witness :
    requestStatusesOk
      (postRequest ⟨some "u1", some "u2", some "b1", some "In-person", some 7, none⟩
        0 emptyStore).2 :=
  C8_request_status_invariant _
    (Relation.ReflTransGen.single
      (Step.createRequest ⟨some "u1", some "u2", some "b1", some "In-person", some 7, none⟩
        0 emptyStore))
